import Mathlib

/-!
# SuplementIA search-and-discovery pipeline: verification development

Shallow embedding of the search-and-discovery pipeline of the SuplementIA
repository, together with theorems settling the specification claims.

Embedded sources:
* `src/backend/lambda/search-api-lancedb/lambda_function.py`
  (`vector_search`, `expand_query_intelligent`, `check_cache`, `store_cache`,
  `lambda_handler`, `add_to_discovery_queue`, `try_sync_discovery`)
* `src/backend/lambda/discovery-worker-lancedb/lambda_function.py`
  (`query_pubmed`, `insert_supplement`, `invalidate_cache`,
  `update_discovery_status`, `lambda_handler`)

Python floats are modelled as rationals (`ℚ`), epoch times as `Int`,
DynamoDB tables as association lists, and effectful external calls
(Bedrock LLM / embeddings, PubMed proxy, LanceDB searches) as explicit
function parameters describing the outcome of each call.
-/

namespace SuplementIA

/-! ## Association-list model of a key/value store -/

/-- Python `str.strip()` as the handler applies it to queries: drop
leading and trailing whitespace.  (Defined over the character list so
that it evaluates by kernel reduction.) -/
def pyStrip (s : String) : String :=
  ⟨((s.data.dropWhile Char.isWhitespace).reverse.dropWhile
      Char.isWhitespace).reverse⟩

/-- Python `str.lower()` on the ASCII text the pipeline handles. -/
def pyLower (s : String) : String := ⟨s.data.map Char.toLower⟩

/-- Slicing `[:n]` of a digest string. -/
def takeChars (n : Nat) (s : String) : String := ⟨s.data.take n⟩

/-- First-match lookup in an association list (the model of a DynamoDB
table keyed by its primary key). -/
def lookupAssoc {κ α : Type} [DecidableEq κ] (k : κ) : List (κ × α) → Option α
  | [] => none
  | e :: es => if e.1 = k then some e.2 else lookupAssoc k es

/-- `put_item`: unconditional overwrite.  The new binding shadows any
previous binding for the same key under first-match lookup. -/
def putAssoc {κ α : Type} [DecidableEq κ] (k : κ) (v : α) (s : List (κ × α)) :
    List (κ × α) :=
  (k, v) :: s

/-- `update_item` on an existing key: apply `f` to the stored value.
(The worker only ever updates items that the stream just delivered,
so the absent-key upsert behaviour of DynamoDB is not exercised.) -/
def updAssoc {κ α : Type} [DecidableEq κ] (k : κ) (f : α → α) (s : List (κ × α)) :
    List (κ × α) :=
  s.map (fun e => if e.1 = k then (e.1, f e.2) else e)

/-- `delete_item`: best-effort removal of a key. -/
def delAssoc {κ α : Type} [DecidableEq κ] (k : κ) (s : List (κ × α)) :
    List (κ × α) :=
  s.filter (fun e => decide ¬(e.1 = k))

theorem lookupAssoc_putAssoc_self {κ α : Type} [DecidableEq κ]
    (k : κ) (v : α) (s : List (κ × α)) :
    lookupAssoc k (putAssoc k v s) = some v := by
  simp [putAssoc, lookupAssoc]

theorem lookupAssoc_updAssoc {κ α : Type} [DecidableEq κ]
    (k k' : κ) (f : α → α) (s : List (κ × α)) :
    lookupAssoc k' (updAssoc k f s) =
      if k' = k then (lookupAssoc k' s).map f else lookupAssoc k' s := by
  induction s with
  | nil => simp [updAssoc, lookupAssoc]
  | cons e es ih =>
    simp only [updAssoc, List.map_cons] at ih ⊢
    by_cases hek : e.1 = k
    · by_cases hkk : e.1 = k'
      · have hk'k : k' = k := hkk.symm.trans hek
        subst hk'k
        simp [lookupAssoc, hek, hkk]
      · have hk'k : ¬ k' = k := fun h => hkk (hek.trans h.symm)
        have hkk' : ¬ k = k' := fun h => hk'k h.symm
        simp [lookupAssoc, hek, hkk, hk'k, hkk', ih]
    · by_cases hkk : e.1 = k'
      · have hk'k : ¬ k' = k := fun h => hek (hkk.trans h)
        simp [lookupAssoc, hek, hkk, hk'k]
      · simp [lookupAssoc, hek, hkk, ih]

theorem updAssoc_keys {κ α : Type} [DecidableEq κ]
    (k : κ) (f : α → α) (s : List (κ × α)) :
    (updAssoc k f s).map Prod.fst = s.map Prod.fst := by
  induction s with
  | nil => rfl
  | cons e es ih =>
    by_cases hek : e.1 = k <;> simp [updAssoc, hek] at ih ⊢ <;> exact ih

/-! ## Search results and the vector-search loop

From `src/backend/lambda/search-api-lancedb/lambda_function.py`.
A LanceDB row as consumed by `vector_search`: the fields the handler
reads via `.get`, with `_distance` optional (the code defaults it to 1). -/

/-- Metadata dict of a catalog record (`record["metadata"]`). -/
structure Metadata where
  category : String := ""
  popularity : String := ""
  evidence_grade : String := ""
  study_count : Int := 0
  pubmed_query : String := ""
  deriving Repr, DecidableEq

/-- A LanceDB search hit as the search API consumes it. -/
structure SearchResult where
  id : Option Int := none
  name : Option String := none
  scientific_name : Option String := none
  common_names : List String := []
  metadata : Option Metadata := none
  dist : Option ℚ := none
  deriving Repr, DecidableEq

/-- `1 - r.get('_distance', 1)`: similarity of a hit. -/
def similarity (r : SearchResult) : ℚ := 1 - r.dist.getD 1

/-- Default of env var `SIMILARITY_THRESHOLD`. -/
def SIMILARITY_THRESHOLD : ℚ := 85 / 100

/-- The candidate loop of `vector_search` (lines 248–282), instrumented
with the list of candidate terms it actually consults: state is
`(best_results, best_similarity)`, a term's results replace the best when
its top similarity strictly exceeds the best so far, and the loop breaks
right after an update whose top similarity is at least `0.95`. -/
def searchLoop (search : String → List SearchResult) :
    List String → List SearchResult → ℚ → List SearchResult × List String
  | [], best, _ => (best, [])
  | t :: ts, best, bestSim =>
    match search t with
    | [] =>
      let rest := searchLoop search ts best bestSim
      (rest.1, t :: rest.2)
    | r0 :: rs =>
      if similarity r0 > bestSim then
        if 95 / 100 ≤ similarity r0 then (r0 :: rs, [t])
        else
          let rest := searchLoop search ts (r0 :: rs) (similarity r0)
          (rest.1, t :: rest.2)
      else
        let rest := searchLoop search ts best bestSim
        (rest.1, t :: rest.2)

/-- `vector_search(query, limit)` (lines 228–293): expand the query,
run the candidate loop from `(best_results, best_similarity) = ([], 0)`,
and keep only results whose similarity reaches the threshold.
`expand` models `expand_query_intelligent` and `search` models one
LanceDB cosine search already truncated to `limit` rows. -/
def vector_search (expand : String → List String)
    (search : String → Int → List SearchResult) (threshold : ℚ)
    (query : String) (limit : Int) : List SearchResult :=
  ((searchLoop (fun t => search t limit) (expand query) [] 0).1).filter
    (fun r => decide (threshold ≤ similarity r))

/-- The candidate terms `vector_search` actually runs a LanceDB search
for (the trace component of `searchLoop`). -/
def consultedTerms (search : String → List SearchResult)
    (terms : List String) : List String :=
  (searchLoop search terms [] 0).2

/-! ### Spec-side description of `resolve`

`resolveSpec` is written from the words of spec §4.3: try the candidate
terms in order, keep the highest-similarity result seen so far, stop
early at the first term whose top result reaches similarity 0.95, filter
to the threshold at the end. -/

/-- A term whose top search result reaches similarity `0.95` ("confident
enough to skip remaining candidates"). -/
def confident (search : String → List SearchResult) (t : String) : Bool :=
  match search t with
  | [] => false
  | r0 :: _ => decide (95 / 100 ≤ similarity r0)

/-- Shortest prefix of a list that ends at the first element satisfying
`p`; the whole list when no element does. -/
def takeThrough {α : Type} (p : α → Bool) : List α → List α
  | [] => []
  | a :: as => if p a then [a] else a :: takeThrough p as

/-- One spec step: "keeping the highest-similarity result seen so far"
(a term with no results is skipped). -/
def bestStep (search : String → List SearchResult)
    (acc : List SearchResult × ℚ) (t : String) : List SearchResult × ℚ :=
  match search t with
  | [] => acc
  | r0 :: rs => if similarity r0 > acc.2 then (r0 :: rs, similarity r0) else acc

/-- `resolve` as spec §4.3 words it, for comparison with `vector_search`. -/
def resolveSpec (expand : String → List String)
    (search : String → Int → List SearchResult) (threshold : ℚ)
    (query : String) (limit : Int) : List SearchResult :=
  (((takeThrough (confident (fun t => search t limit)) (expand query)).foldl
      (bestStep (fun t => search t limit)) ([], 0)).1).filter
    (fun r => decide (threshold ≤ similarity r))

/-- While the running best similarity is below `0.95`, the code's loop
(with its break) computes exactly the spec's fold over the prefix that
ends at the first confident term, and consults exactly that prefix. -/
theorem searchLoop_eq_foldl (search : String → List SearchResult) :
    ∀ (ts : List String) (best : List SearchResult) (bestSim : ℚ),
      bestSim < 95 / 100 →
      searchLoop search ts best bestSim =
        (((takeThrough (confident search) ts).foldl (bestStep search)
            (best, bestSim)).1,
          takeThrough (confident search) ts) := by
  intro ts
  induction ts with
  | nil => intro best bestSim _; rfl
  | cons t ts ih =>
    intro best bestSim hlt
    cases hsearch : search t with
    | nil =>
      simp [searchLoop, hsearch, takeThrough, confident, bestStep,
        ih best bestSim hlt]
    | cons r0 rs =>
      by_cases hconf : 95 / 100 ≤ similarity r0
      · have hgt : similarity r0 > bestSim := lt_of_lt_of_le hlt hconf
        simp [searchLoop, hsearch, hgt, hconf, takeThrough, confident,
          bestStep]
      · have hconf' : ¬ (95 : ℚ) / 100 ≤ similarity r0 := hconf
        by_cases hgt : similarity r0 > bestSim
        · have hlt' : similarity r0 < 95 / 100 := lt_of_not_le hconf'
          simp [searchLoop, hsearch, hgt, hconf', takeThrough, confident,
            bestStep, ih (r0 :: rs) (similarity r0) hlt']
        · simp [searchLoop, hsearch, hgt, hconf', takeThrough, confident,
            bestStep, ih best bestSim hlt]

/-- **C1.** `vector_search` behaves as spec §4.3 describes `resolve`:
it equals the spec-side description (try expanded terms in order, keep
the results of the term with the highest top similarity so far, stop at
the first term whose top similarity reaches 0.95, filter to the
threshold), it consults exactly the expanded candidates up to and
including the first confident one, and every returned result has
similarity at least the threshold — so an empty list is returned exactly
when no kept result clears the threshold, which the caller treats as a
miss. -/
theorem vector_search_matches_resolve_spec
    (expand : String → List String)
    (search : String → Int → List SearchResult) (threshold : ℚ)
    (query : String) (limit : Int) :
    vector_search expand search threshold query limit =
        resolveSpec expand search threshold query limit ∧
      consultedTerms (fun t => search t limit) (expand query) =
        takeThrough (confident (fun t => search t limit)) (expand query) ∧
      ∀ r ∈ vector_search expand search threshold query limit,
        threshold ≤ similarity r := by
  have h := searchLoop_eq_foldl (fun t => search t limit) (expand query) [] 0
    (by norm_num)
  refine ⟨?_, ?_, ?_⟩
  · simp only [vector_search, resolveSpec, h]
  · simp only [consultedTerms, h]
  · intro r hr
    simp only [vector_search, List.mem_filter, decide_eq_true_eq] at hr
    exact hr.2

/-! ## Cache Store adapter

From `check_cache` (lines 186–203) and `store_cache` (lines 206–225) of
`search-api-lancedb/lambda_function.py`.  The DynamoDB item uses
`PK = "SUPPLEMENT#" + query_hash`, constant `SK = "QUERY"`; the model
keys the table by the `PK` string. -/

/-- The supplement payload the handler builds and caches
(`supplement_data`, lines 769–776). -/
structure SupplementData where
  id : Option Int := none
  name : Option String := none
  scientificName : Option String := none
  commonNames : List String := []
  metadata : Metadata := {}
  similarity : ℚ := 0
  deriving Repr, DecidableEq

/-- A `supplement-cache` item as written by `store_cache`.
`supplementData` is optional because `check_cache` reads it with `.get`. -/
structure CacheItem where
  supplementData : Option SupplementData := none
  embedding : List ℚ := []
  ttl : Int := 0
  searchCount : Int := 0
  lastAccessed : Int := 0
  deriving Repr, DecidableEq

/-- Outcome of one DynamoDB read: the item (or its absence), or a store
error (the exception `check_cache` catches). -/
inductive StoreRead (α : Type) where
  | ok (v : Option α)
  | err (msg : String)
  deriving Repr, DecidableEq

/-- The cache table partition key `SUPPLEMENT#<hash>`. -/
def cacheKeyOf (query_hash : String) : String := "SUPPLEMENT#" ++ query_hash

/-- Modelled from the spec: the managed store (DynamoDB with a TTL
attribute, configured outside `src/`) serves an item only while it is
unexpired — `get` "returns the stored payload if present and unexpired"
(spec §4.1).  An item whose `ttl` has passed reads as absent. -/
def dynamoGetCache (cache : List (String × CacheItem)) (now : Int)
    (key : String) : Option CacheItem :=
  match lookupAssoc key cache with
  | some item => if item.ttl ≤ now then none else some item
  | none => none

/-- A reliable store read (no client error). -/
def dynamoRead (cache : List (String × CacheItem)) (now : Int)
    (key : String) : StoreRead CacheItem :=
  .ok (dynamoGetCache cache now key)

/-- `check_cache` (lines 186–203): return the item's `supplementData`
when the read produced an item, `None` when it produced nothing, and
`None` on any store exception (the `except` branch). -/
def check_cache (read : StoreRead CacheItem) : Option SupplementData :=
  match read with
  | .err _ => none
  | .ok none => none
  | .ok (some item) => item.supplementData

/-- `store_cache` (lines 206–225): unconditional `put_item` with
`ttl = now + 7 days`, `searchCount = 1`, `lastAccessed = now`. -/
def store_cache (cache : List (String × CacheItem)) (now : Int)
    (query_hash : String) (supplement_data : SupplementData)
    (embedding : List ℚ) : List (String × CacheItem) :=
  putAssoc (cacheKeyOf query_hash)
    { supplementData := some supplement_data
      embedding := embedding
      ttl := now + 7 * 24 * 60 * 60
      searchCount := 1
      lastAccessed := now } cache

/-! ## Query expansion (`expand_query_intelligent`, lines 116–183)

`llm` models the composite outcome of the Bedrock call plus
`json.loads` on its text: `none` when either raises (LLM failure or
malformed output), `some terms` when the text parses as a JSON array. -/

def expand_query_intelligent (llm : String → Option (List String))
    (query : String) : List String :=
  match llm query with
  | some expanded_terms => expanded_terms
  | none => [query]

/-! ## Synchronous discovery (`try_sync_discovery`, lines 1051–1176) -/

/-- Outcome of `get_pubmed_count_cached` as observed by
`try_sync_discovery`: a study count, a `requests.Timeout`, or any other
exception. -/
inductive OracleOutcome where
  | count (n : Int)
  | timeout
  | failure (msg : String)
  deriving Repr, DecidableEq

/-- Result dict of `try_sync_discovery`.  The success dict carries no
`reason` key and the failure dicts no `evidence_grade` key, modelled as
`none`. -/
structure SyncDiscoveryResult where
  success : Bool
  study_count : Int
  reason : Option String
  message : String
  evidence_grade : Option String
  deriving Repr, DecidableEq

/-- Evidence grading of `try_sync_discovery` (lines 1103–1110); the
LanceDB discovery worker uses the same thresholds. -/
def gradeOf (study_count : Int) : String :=
  if 100 ≤ study_count then "A"
  else if 50 ≤ study_count then "B"
  else if 10 ≤ study_count then "C"
  else "D"

/-- `try_sync_discovery` (lines 1051–1176): threshold check against
`MIN_STUDIES`, grading, and the three failure shapes.  The LanceDB
insert of the discovered record is an external effect, reflected in the
handler model by the post-discovery search function. -/
def try_sync_discovery (minStudies : Int) (oracle : OracleOutcome) :
    SyncDiscoveryResult :=
  match oracle with
  | .timeout =>
    { success := false, study_count := 0, reason := some "pubmed_timeout"
      message := "PubMed query timed out", evidence_grade := none }
  | .failure msg =>
    { success := false, study_count := 0, reason := some "error"
      message := "Discovery error: " ++ msg, evidence_grade := none }
  | .count n =>
    if n < minStudies then
      { success := false, study_count := n
        reason := some "insufficient_studies"
        message := "Only " ++ toString n ++ " studies found (minimum: " ++
          toString minStudies ++ ")"
        evidence_grade := none }
    else
      { success := true, study_count := n, reason := none
        message := "Successfully indexed with " ++ toString n ++ " studies"
        evidence_grade := some (gradeOf n) }

/-! ## Discovery queue (`add_to_discovery_queue`, lines 822–843)

Queue items live in the `discovery-queue` table keyed by
`(PK, SK) = ("DISCOVERY#" + digest, "PENDING")`.  The fields beyond
those `add_to_discovery_queue` writes (`errorMessage`, `processedAt`,
`retryCount`) appear here because the worker and the spec data model
refer to them; a fresh item has none of them. -/

structure QueueItem where
  query : String := ""
  searchCount : Int := 0
  priority : Int := 0
  status : String := ""
  createdAt : Int := 0
  errorMessage : Option String := none
  processedAt : Option Int := none
  retryCount : Option Int := none
  deriving Repr, DecidableEq

/-- `add_to_discovery_queue`: upsert keyed by
`sha256(raw query)[:16]`, status `pending`. -/
def add_to_discovery_queue (sha256hex : String → String) (now : Int)
    (query : String) (queue : List ((String × String) × QueueItem)) :
    List ((String × String) × QueueItem) :=
  let query_id := takeChars 16 (sha256hex query)
  putAssoc ("DISCOVERY#" ++ query_id, "PENDING")
    { query := query, searchCount := 1, priority := 1, status := "pending"
      createdAt := now } queue

/-! ## Theorems: cache adapter (C3, C4) -/

/-- **C3.** A cache `put` unconditionally overwrites whatever the table
held for the key: after `store_cache` at time `now`, the key holds
exactly the fresh item, whose expiry is `now + 7` days and whose access
counter is 1; and a `get` of the same key performed immediately (at
`now`) returns the stored payload. -/
theorem store_cache_overwrites_and_roundtrips
    (cache : List (String × CacheItem)) (now : Int) (query_hash : String)
    (supplement_data : SupplementData) (embedding : List ℚ) :
    lookupAssoc (cacheKeyOf query_hash)
        (store_cache cache now query_hash supplement_data embedding) =
      some { supplementData := some supplement_data
             embedding := embedding
             ttl := now + 7 * 24 * 60 * 60
             searchCount := 1
             lastAccessed := now } ∧
    check_cache (dynamoRead
        (store_cache cache now query_hash supplement_data embedding) now
        (cacheKeyOf query_hash)) = some supplement_data := by
  constructor
  · exact lookupAssoc_putAssoc_self _ _ _
  · have hlt : ¬ now + 604800 ≤ now := by omega
    simp [check_cache, dynamoRead, dynamoGetCache, store_cache, putAssoc,
      lookupAssoc, hlt]

/-- **C4.** A cache `get` returns a stored payload exactly when an entry
for the key is present and unexpired, and a failing store read yields
absent instead of an exception (`check_cache` is total and maps the
error outcome to `None`, so the caller proceeds as on a miss). -/
theorem check_cache_present_unexpired_iff
    (cache : List (String × CacheItem)) (now : Int) (key : String)
    (payload : SupplementData) :
    (check_cache (dynamoRead cache now key) = some payload ↔
      ∃ item, lookupAssoc key cache = some item ∧ now < item.ttl ∧
        item.supplementData = some payload) ∧
    ∀ msg, check_cache (.err msg) = none := by
  constructor
  · cases hit : lookupAssoc key cache with
    | none => simp [check_cache, dynamoRead, dynamoGetCache, hit]
    | some item =>
      have hcc : check_cache (dynamoRead cache now key) =
          if item.ttl ≤ now then none else item.supplementData := by
        by_cases hexp : item.ttl ≤ now <;>
          simp [check_cache, dynamoRead, dynamoGetCache, hit, hexp]
      by_cases hexp : item.ttl ≤ now
      · rw [hcc, if_pos hexp]
        constructor
        · intro h; simp at h
        · rintro ⟨item', hi', hlt', _⟩
          cases Option.some.inj hi'
          omega
      · rw [hcc, if_neg hexp]
        constructor
        · intro h
          exact ⟨item, rfl, by omega, h⟩
        · rintro ⟨item', hi', _, hp'⟩
          cases Option.some.inj hi'
          exact hp'
  · intro msg; rfl

/-! ## Theorems: query expansion (C8) -/

/-- **C8 counterexample.** The claim says `expand` always returns at
most 4 terms, but the code returns the parsed LLM output unchanged: when
the LLM answers with a five-element JSON array, `expand` returns all
five terms. -/
theorem expand_can_exceed_four_terms :
    ¬ ((expand_query_intelligent
        (fun _ => some ["a", "b", "c", "d", "e"]) "NAC").length ≤ 4) := by
  decide

/-- **C8 (amended).** `expand` returns the LLM's parsed list unchanged —
the ≤ 4 bound is what the prompt requests, not something the code
enforces — and on LLM failure or unparseable output it returns exactly
the single-element list containing the original query. -/
theorem expand_returns_parse_or_fallback
    (llm : String → Option (List String)) (query : String) :
    (llm query = none → expand_query_intelligent llm query = [query]) ∧
    ∀ terms, llm query = some terms →
      expand_query_intelligent llm query = terms := by
  constructor
  · intro h; simp [expand_query_intelligent, h]
  · intro terms h; simp [expand_query_intelligent, h]

/-- Closed instance of the C8 amended theorem: a failing LLM call falls
back to the original query, and a parsed array is passed through. -/
theorem expand_returns_parse_or_fallback_witness :
    expand_query_intelligent (fun _ => none) "NAC" = ["NAC"] ∧
    expand_query_intelligent (fun _ => some ["N-Acetyl Cysteine"]) "NAC" =
      ["N-Acetyl Cysteine"] :=
  ⟨(expand_returns_parse_or_fallback (fun _ => none) "NAC").1 rfl,
   (expand_returns_parse_or_fallback
      (fun _ => some ["N-Acetyl Cysteine"]) "NAC").2 _ rfl⟩

/-! ## Theorems: synchronous discovery (C2) -/

/-- **C2 counterexample.** At study count 0 synchronous discovery does
fail, but its recorded reason is the string `"insufficient_studies"`,
not `"insufficient evidence"` as the claim states. -/
theorem sync_discovery_reason_string_differs :
    (try_sync_discovery 3 (.count 0)).success = false ∧
    (try_sync_discovery 3 (.count 0)).reason ≠ some "insufficient evidence" := by
  decide

/-- **C2 (amended).** With the default `MIN_STUDIES = 3`: a study count
below 3 makes synchronous discovery fail with reason
`"insufficient_studies"` and the observed count; a count of at least 3
succeeds, reports the count, and records grade A for counts ≥ 100, B
for counts in [50, 100), C for counts in [10, 50), and D otherwise. -/
theorem sync_discovery_threshold_and_grades (n : Int) :
    (n < 3 → (try_sync_discovery 3 (.count n)).success = false ∧
      (try_sync_discovery 3 (.count n)).reason = some "insufficient_studies" ∧
      (try_sync_discovery 3 (.count n)).study_count = n) ∧
    (3 ≤ n → (try_sync_discovery 3 (.count n)).success = true ∧
      (try_sync_discovery 3 (.count n)).study_count = n ∧
      (100 ≤ n → (try_sync_discovery 3 (.count n)).evidence_grade = some "A") ∧
      (50 ≤ n → n < 100 →
        (try_sync_discovery 3 (.count n)).evidence_grade = some "B") ∧
      (10 ≤ n → n < 50 →
        (try_sync_discovery 3 (.count n)).evidence_grade = some "C") ∧
      (n < 10 → (try_sync_discovery 3 (.count n)).evidence_grade = some "D")) := by
  constructor
  · intro h
    simp [try_sync_discovery, h]
  · intro h3
    have h : ¬ n < 3 := not_lt.mpr h3
    refine ⟨by simp [try_sync_discovery, h], by simp [try_sync_discovery, h],
      ?_, ?_, ?_, ?_⟩
    · intro h100
      simp [try_sync_discovery, h, gradeOf, h100]
    · intro h50 h100
      have : ¬ 100 ≤ n := by omega
      simp [try_sync_discovery, h, gradeOf, this, h50]
    · intro h10 h50
      have h100 : ¬ 100 ≤ n := by omega
      have h50' : ¬ 50 ≤ n := by omega
      simp [try_sync_discovery, h, gradeOf, h100, h50', h10]
    · intro h10
      have h100 : ¬ 100 ≤ n := by omega
      have h50' : ¬ 50 ≤ n := by omega
      have h10' : ¬ 10 ≤ n := by omega
      simp [try_sync_discovery, h, gradeOf, h100, h50', h10']

/-- Closed instances of the C2 amended theorem at counts 2 (failure) and
150, 72, 20, 5 (one per grade bucket). -/
theorem sync_discovery_threshold_and_grades_witness :
    ((try_sync_discovery 3 (.count 2)).success = false ∧
      (try_sync_discovery 3 (.count 2)).reason = some "insufficient_studies" ∧
      (try_sync_discovery 3 (.count 2)).study_count = 2) ∧
    (try_sync_discovery 3 (.count 150)).evidence_grade = some "A" ∧
    (try_sync_discovery 3 (.count 72)).evidence_grade = some "B" ∧
    (try_sync_discovery 3 (.count 20)).evidence_grade = some "C" ∧
    (try_sync_discovery 3 (.count 5)).evidence_grade = some "D" := by
  have h2 := (sync_discovery_threshold_and_grades 2).1 (by norm_num)
  have h150 := (((sync_discovery_threshold_and_grades 150).2
    (by norm_num)).2.2).1 (by norm_num)
  have h72 := (((sync_discovery_threshold_and_grades 72).2
    (by norm_num)).2.2).2.1 (by norm_num) (by norm_num)
  have h20 := (((sync_discovery_threshold_and_grades 20).2
    (by norm_num)).2.2).2.2.1 (by norm_num) (by norm_num)
  have h5 := (((sync_discovery_threshold_and_grades 5).2
    (by norm_num)).2.2).2.2.2 (by norm_num)
  exact ⟨h2, h150, h72, h20, h5⟩

/-! ## The search API handler (`lambda_handler`, lines 632–819) -/

/-- The recognized query-string parameters. An empty parameters dict is
modelled as `queryStringParameters = none` (both are falsy in the
`if not query_params` check). -/
structure SearchParams where
  q : Option String := none
  limit : Option String := none
  top_k : Option String := none
  deriving Repr, DecidableEq

/-- The handler's event: a possible admin `action` plus query-string
parameters. -/
structure Event where
  action : Option String := none
  queryStringParameters : Option SearchParams := none
  deriving Repr, DecidableEq

/-- JSON response body: each key the handler ever emits, absent keys as
`none`. -/
structure Body where
  success : Option Bool := none
  error : Option String := none
  message : Option String := none
  query : Option String := none
  reason : Option String := none
  studyCount : Option Int := none
  suggestion : Option String := none
  supplement : Option SupplementData := none
  cacheHit : Option Bool := none
  source : Option String := none
  alternativeMatches : Option (List SupplementData) := none
  deriving Repr, DecidableEq

structure Response where
  statusCode : Nat
  body : Body
  deriving Repr, DecidableEq

/-- Python truthiness of `dict.get`: both a missing key and an empty
string are falsy in `query_params.get('top_k') or ...`. -/
def pyTruthy (s : Option String) : Option String :=
  match s with
  | some t => if t = "" then none else some t
  | none => none

/-- The string `int()` is applied to:
`query_params.get('top_k') or query_params.get('limit', 5)` — `none`
means both fall through to the integer default 5. -/
def chosenLimitString (p : SearchParams) : Option String :=
  match pyTruthy p.top_k with
  | some t => some t
  | none => p.limit

/-- After an optional sign: Python integer-literal digits, i.e. digits
with single underscores strictly between digits (continuation after the
first digit). -/
def pyDigitsTail : List Char → Bool
  | [] => true
  | '_' :: [] => false
  | '_' :: c :: rest => c.isDigit && pyDigitsTail rest
  | c :: rest => c.isDigit && pyDigitsTail rest

/-- At least one digit, underscores only between digits. -/
def pyDigits : List Char → Bool
  | [] => false
  | c :: rest => c.isDigit && pyDigitsTail rest

/-- `int(s)` on a Python `str`: strip whitespace, optional single sign,
digits with underscore separators; `none` models the `ValueError`. -/
def pyInt? (s : String) : Option Int :=
  let t := (pyStrip s).data
  let core : List Char :=
    match t with
    | '-' :: rest => rest
    | '+' :: rest => rest
    | _ => t
  let neg : Bool := match t with | '-' :: _ => true | _ => false
  if pyDigits core then
    let v : Int := (core.filter (fun c => !(c == '_'))).foldl
      (fun n c => 10 * n + ((c.toNat : Int) - 48)) 0
    some (if neg then -v else v)
  else none

/-- `int(query_params.get('top_k') or query_params.get('limit', 5))`
(line 687): `none` models the uncaught `ValueError` from `int()`. -/
def parsedLimit (p : SearchParams) : Option Int :=
  match chosenLimitString p with
  | some l => pyInt? l
  | none => some 5

/-- CPython's `ValueError` text for a failed `int()` conversion. -/
def pyIntErrorMessage (s : String) : String :=
  "invalid literal for int() with base 10: \x27" ++ s ++ "\x27"

/-- `hashlib.sha256(query.lower().encode()).hexdigest()[:16]`
(line 691), over an already-stripped query; the digest function itself
is the external `hashlib` primitive, passed as a parameter. -/
def lookupHash (sha256hex : String → String) (query : String) : String :=
  takeChars 16 (sha256hex (pyLower query))

/-- `round(x, 3)`.  (CPython rounds ties to even; the model rounds ties
up — no handler value is compared at a tie by any theorem below.) -/
def round3 (q : ℚ) : ℚ := ((round (q * 1000) : ℤ) : ℚ) / 1000

/-- The supplement payload built from a search hit
(lines 769–776 and 783–793). -/
def supplementDataOf (r : SearchResult) : SupplementData :=
  { id := r.id
    name := r.name
    scientificName := r.scientific_name
    commonNames := r.common_names
    metadata := r.metadata.getD {}
    similarity := round3 (similarity r) }

/-- Outcomes of the handler's external calls.  `search1` is a LanceDB
cosine search against the catalog as the request finds it; `search2`
the same search after `try_sync_discovery` has inserted the discovered
record; `oracle` the PubMed count outcome; `cacheRead` the DynamoDB
read behaviour (reliable reads are `dynamoRead`). -/
structure HandlerCtx where
  sha256hex : String → String
  expand : String → List String
  search1 : String → Int → List SearchResult
  search2 : String → Int → List SearchResult
  oracle : OracleOutcome
  embed : String → List ℚ
  cacheRead : List (String × CacheItem) → Int → String → StoreRead CacheItem
  minStudies : Int := 3
  threshold : ℚ := SIMILARITY_THRESHOLD
  adminResponse : Response := ⟨200, {}⟩

/-- The two DynamoDB tables the search API touches. -/
structure PipelineState where
  cache : List (String × CacheItem) := []
  queue : List ((String × String) × QueueItem) := []
  deriving Repr, DecidableEq

/-- The 200 match path (lines 765–805): build the payload from the best
hit, embed the query, cache it, and list the remaining hits as
alternatives. -/
def successResponse (ctx : HandlerCtx) (now : Int) (st : PipelineState)
    (query query_hash : String) (best : SearchResult)
    (rest : List SearchResult) : Response × PipelineState :=
  (⟨200,
    { success := some true
      supplement := some (supplementDataOf best)
      cacheHit := some false
      source := some "lancedb"
      alternativeMatches := some (rest.map supplementDataOf) }⟩,
   { st with cache := (store_cache st.cache now query_hash
       (supplementDataOf best) (ctx.embed query)) })

/-- `lambda_handler` (lines 632–819).  The two admin actions delegate to
the reindex handlers, summarized by `ctx.adminResponse`; everything else
follows the source branch for branch: parameter validation, limit
parsing, cache check, first search, synchronous discovery with
re-search, and the two 404 miss paths that enqueue the query. -/
def lambda_handler (ctx : HandlerCtx) (now : Int) (event : Event)
    (st : PipelineState) : Response × PipelineState :=
  if event.action = some "reindex" ∨ event.action = some "index_from_s3" then
    (ctx.adminResponse, st)
  else
    match event.queryStringParameters with
    | none =>
      (⟨400, { error := some "Missing query parameters"
               message := some "Query parameter \"q\" is required" }⟩, st)
    | some query_params =>
      if pyStrip (query_params.q.getD "") = "" then
        (⟨400, { error := some "Empty query"
                 message := some "Query parameter \"q\" cannot be empty" }⟩, st)
      else if 200 < (pyStrip (query_params.q.getD "")).length then
        (⟨400, { error := some "Query too long"
                 message := some "Query must be less than 200 characters" }⟩, st)
      else
        match parsedLimit query_params with
        | none =>
          (⟨500, { error := some "Internal server error"
                   message := some (pyIntErrorMessage
                     ((chosenLimitString query_params).getD "")) }⟩, st)
        | some limit =>
          match check_cache (ctx.cacheRead st.cache now
              (cacheKeyOf (lookupHash ctx.sha256hex
                (pyStrip (query_params.q.getD ""))))) with
          | some cached_result =>
            (⟨200, { success := some true
                     supplement := some cached_result
                     cacheHit := some true
                     source := some "dynamodb" }⟩, st)
          | none =>
            match vector_search ctx.expand ctx.search1 ctx.threshold
                (pyStrip (query_params.q.getD "")) limit with
            | best :: rest =>
              successResponse ctx now st (pyStrip (query_params.q.getD ""))
                (lookupHash ctx.sha256hex (pyStrip (query_params.q.getD "")))
                best rest
            | [] =>
              if (try_sync_discovery ctx.minStudies ctx.oracle).success then
                match vector_search ctx.expand ctx.search2 ctx.threshold
                    (pyStrip (query_params.q.getD "")) limit with
                | best :: rest =>
                  successResponse ctx now st (pyStrip (query_params.q.getD ""))
                    (lookupHash ctx.sha256hex (pyStrip (query_params.q.getD "")))
                    best rest
                | [] =>
                  (⟨404, { success := some false
                           message := some "Supplement not found"
                           query := some (pyStrip (query_params.q.getD ""))
                           suggestion := some "This supplement has been added to our discovery queue" }⟩,
                   { st with queue := (add_to_discovery_queue ctx.sha256hex now
                       (pyStrip (query_params.q.getD "")) st.queue) })
              else
                (⟨404, { success := some false
                         message := some (try_sync_discovery ctx.minStudies
                           ctx.oracle).message
                         query := some (pyStrip (query_params.q.getD ""))
                         reason := (try_sync_discovery ctx.minStudies
                           ctx.oracle).reason
                         studyCount := some (try_sync_discovery ctx.minStudies
                           ctx.oracle).study_count
                         suggestion := some "We\x27ll continue looking for this supplement in the background" }⟩,
                 { st with queue := (add_to_discovery_queue ctx.sha256hex now
                     (pyStrip (query_params.q.getD "")) st.queue) })

/-! ## Theorems: cache key derivation (C5) -/

/-- **C5.** The cache lookup hash is a deterministic function of the
lowercased, trimmed raw query text: two raw queries that agree after
trimming and lowercasing (in particular, queries differing only in case
or in leading/trailing whitespace) yield the same cache key. -/
theorem lookup_hash_depends_only_on_trimmed_lowercase
    (sha256hex : String → String) (raw1 raw2 : String)
    (h : pyLower (pyStrip raw1) = pyLower (pyStrip raw2)) :
    lookupHash sha256hex (pyStrip raw1) = lookupHash sha256hex (pyStrip raw2) := by
  unfold lookupHash
  rw [h]

/-- Closed instance of C5 at two queries differing only in case and
surrounding whitespace. -/
theorem lookup_hash_depends_only_on_trimmed_lowercase_witness :
    pyLower (pyStrip "  Vitamin D ") = pyLower (pyStrip "VITAMIN d") ∧
    lookupHash (fun s => s) (pyStrip "  Vitamin D ") =
      lookupHash (fun s => s) (pyStrip "VITAMIN d") :=
  ⟨by decide,
   lookup_hash_depends_only_on_trimmed_lowercase (fun s => s) _ _ (by decide)⟩

/-! ## Theorems: malformed limit parameter (C10) -/

/-- **C10.** A request whose `q` is well-formed (non-empty after
trimming, at most 200 characters) but whose effective `limit`/`top_k`
string fails `int()` conversion is answered with status 500 and the
generic internal-error body — the `ValueError` is caught only by the
handler's catch-all — not with a 400 validation error. -/
theorem invalid_limit_is_internal_error
    (ctx : HandlerCtx) (now : Int) (st : PipelineState) (p : SearchParams)
    (hq1 : ¬ pyStrip (p.q.getD "") = "")
    (hq2 : (pyStrip (p.q.getD "")).length ≤ 200)
    (hl : parsedLimit p = none) :
    lambda_handler ctx now { action := none, queryStringParameters := some p }
        st =
      (⟨500, { error := some "Internal server error"
               message := some (pyIntErrorMessage
                 ((chosenLimitString p).getD "")) }⟩, st) := by
  have hq2' : ¬ 200 < (pyStrip (p.q.getD "")).length := not_lt.mpr hq2
  unfold lambda_handler
  simp [hq1, hq2', hl]

/-- Closed instance of C10: `q = "creatine"`, `top_k = "abc"` produces
the 500 internal-error response. -/
theorem invalid_limit_is_internal_error_witness :
    (¬ pyStrip ((({ q := some "creatine", top_k := some "abc" } :
        SearchParams)).q.getD "") = "" ∧
      parsedLimit { q := some "creatine", top_k := some "abc" } = none) ∧
    lambda_handler
        { sha256hex := fun s => s, expand := fun q => [q]
          search1 := fun _ _ => [], search2 := fun _ _ => []
          oracle := .count 0, embed := fun _ => []
          cacheRead := dynamoRead } 100
        { action := none
          queryStringParameters :=
            some { q := some "creatine", top_k := some "abc" } } {} =
      (⟨500, { error := some "Internal server error"
               message := some (pyIntErrorMessage "abc") }⟩, {}) :=
  ⟨⟨by decide, by decide⟩,
   invalid_limit_is_internal_error _ 100 {} _ (by decide) (by decide)
     (by decide)⟩

/-! ## Theorems: cache hits do not write (C9) -/

/-- Test fixtures for the cache-hit scenario: an identity digest, empty
searches, and a cache already holding the payload for `vitamin d`. -/
def testCtx : HandlerCtx :=
  { sha256hex := fun s => s
    expand := fun q => [q]
    search1 := fun _ _ => []
    search2 := fun _ _ => []
    oracle := .count 0
    embed := fun _ => []
    cacheRead := dynamoRead }

def testPayload : SupplementData := { name := some "Vitamin D" }

def hitEvent : Event := { queryStringParameters := some { q := some "vitamin d" } }

def hitState : PipelineState :=
  { cache := [("SUPPLEMENT#vitamin d",
      { supplementData := some testPayload, embedding := []
        ttl := 604900, searchCount := 1, lastAccessed := 100 })] }

/-- **C9 counterexample.** On a cache hit the handler answers from the
cache but writes nothing back: at time 200 the entry written at time 100
still has `searchCount = 1` and `lastAccessed = 100` (≠ 200) after the
hit — the access counter and last-access timestamp are not updated, as
the claim asserts they are. -/
theorem cache_hit_does_not_refresh_counters :
    (lambda_handler testCtx 200 hitEvent hitState).1.body.cacheHit =
      some true ∧
    (lambda_handler testCtx 200 hitEvent hitState).2 = hitState ∧
    (lookupAssoc "SUPPLEMENT#vitamin d"
        (lambda_handler testCtx 200 hitEvent hitState).2.cache).map
      CacheItem.lastAccessed = some 100 ∧
    ¬ (100 : Int) = 200 ∧
    (lookupAssoc "SUPPLEMENT#vitamin d"
        (lambda_handler testCtx 200 hitEvent hitState).2.cache).map
      CacheItem.searchCount = some 1 := by
  decide

/-- **C9 (amended).** On every cache hit the stored entry is only read:
the handler leaves both tables exactly as they were (no counter,
timestamp or expiry field changes), and the expiry of an entry is the
`now + 7` days stamped by the `store_cache` write that created it —
reads never extend it. -/
theorem cache_hit_reads_without_writing
    (ctx : HandlerCtx) (now : Int) (event : Event) (st : PipelineState)
    (h : (lambda_handler ctx now event st).1.body.cacheHit = some true) :
    (lambda_handler ctx now event st).2 = st ∧
    ∀ (cache : List (String × CacheItem)) (k : String)
      (payload : SupplementData) (e : List ℚ),
      (lookupAssoc (cacheKeyOf k) (store_cache cache now k payload e)).map
        CacheItem.ttl = some (now + 7 * 24 * 60 * 60) := by
  constructor
  · revert h
    unfold lambda_handler successResponse
    repeat' split
    all_goals intro h
    all_goals first
      | rfl
      | exact absurd h (by simp)
  · intro cache k payload e
    simp [store_cache, putAssoc, lookupAssoc]

/-- Closed instance of the C9 amended theorem at the concrete hit
scenario. -/
theorem cache_hit_reads_without_writing_witness :
    (lambda_handler testCtx 200 hitEvent hitState).1.body.cacheHit =
      some true ∧
    (lambda_handler testCtx 200 hitEvent hitState).2 = hitState :=
  ⟨by decide,
   (cache_hit_reads_without_writing testCtx 200 hitEvent hitState
     (by decide)).1⟩

/-! ## Theorems: 404 misses always enqueue (C6) -/

/-- **C6.** For search requests (no admin action): every 404 response
carries `success: false`, a message and a suggestion, and leaves the
discovery queue equal to an enqueue of some query whose item has status
`pending`; and conversely a request that validates, misses the cache,
finds nothing above the threshold, and whose synchronous discovery
attempt does not produce a match, is answered 404 with exactly that
enqueue of its trimmed query. -/
theorem miss_404_always_enqueues_pending
    (ctx : HandlerCtx) (now : Int) (event : Event) (st : PipelineState)
    (ha : event.action = none) :
    ((lambda_handler ctx now event st).1.statusCode = 404 →
      (lambda_handler ctx now event st).1.body.success = some false ∧
      ((lambda_handler ctx now event st).1.body.message).isSome = true ∧
      ((lambda_handler ctx now event st).1.body.suggestion).isSome = true ∧
      ∃ q, (lambda_handler ctx now event st).2.queue =
          add_to_discovery_queue ctx.sha256hex now q st.queue ∧
        lookupAssoc ("DISCOVERY#" ++ takeChars 16 (ctx.sha256hex q), "PENDING")
            (lambda_handler ctx now event st).2.queue =
          some { query := q, searchCount := 1, priority := 1
                 status := "pending", createdAt := now }) ∧
    (∀ (p : SearchParams) (limit : Int),
      event.queryStringParameters = some p →
      ¬ pyStrip (p.q.getD "") = "" →
      (pyStrip (p.q.getD "")).length ≤ 200 →
      parsedLimit p = some limit →
      check_cache (ctx.cacheRead st.cache now
        (cacheKeyOf (lookupHash ctx.sha256hex (pyStrip (p.q.getD ""))))) =
        none →
      vector_search ctx.expand ctx.search1 ctx.threshold
        (pyStrip (p.q.getD "")) limit = [] →
      ((try_sync_discovery ctx.minStudies ctx.oracle).success = false ∨
        vector_search ctx.expand ctx.search2 ctx.threshold
          (pyStrip (p.q.getD "")) limit = []) →
      (lambda_handler ctx now event st).1.statusCode = 404 ∧
      (lambda_handler ctx now event st).2.queue =
        add_to_discovery_queue ctx.sha256hex now (pyStrip (p.q.getD ""))
          st.queue) := by
  constructor
  · unfold lambda_handler successResponse
    rw [ha, if_neg (by simp)]
    repeat' split
    all_goals intro h404
    all_goals first
      | exact ⟨rfl, rfl, rfl, _, rfl,
          by simp [add_to_discovery_queue, putAssoc, lookupAssoc]⟩
      | simp at h404
  · intro p limit hp hq1 hq2 hlim hcache hr1 hmiss
    have hq2' : ¬ 200 < (pyStrip (p.q.getD "")).length := not_lt.mpr hq2
    unfold lambda_handler
    rw [ha, if_neg (by simp), hp]
    simp only [hq1, hq2', hlim, hcache, hr1]
    rcases hmiss with hfail | hr2
    · simp [hfail]
    · by_cases hsucc : (try_sync_discovery ctx.minStudies ctx.oracle).success
      · simp [hsucc, hr2]
      · simp [hsucc]

def missEvent : Event := { queryStringParameters := some { q := some "nac" } }

/-- Closed instance of C6: a miss for `"nac"` (empty catalog, zero-count
oracle) yields a 404 with the query enqueued as pending. -/
theorem miss_404_always_enqueues_pending_witness :
    ((lambda_handler testCtx 300 missEvent {}).1.statusCode = 404 ∧
      (lambda_handler testCtx 300 missEvent {}).2.queue =
        add_to_discovery_queue testCtx.sha256hex 300 (pyStrip "nac")
          (({} : PipelineState)).queue) ∧
    (lambda_handler testCtx 300 missEvent {}).1.body.success = some false ∧
    ((lambda_handler testCtx 300 missEvent {}).1.body.suggestion).isSome =
      true := by
  have h := miss_404_always_enqueues_pending testCtx 300 missEvent {} rfl
  have h2 := h.2 { q := some "nac" } 5 rfl (by decide) (by decide) (by decide)
    (by decide) (by decide) (Or.inl (by decide))
  have h1 := h.1 h2.1
  exact ⟨h2, h1.1, h1.2.2.1⟩

/-! ## The discovery worker
(`src/backend/lambda/discovery-worker-lancedb/lambda_function.py`) -/

/-- A DynamoDB stream record as the worker reads it (`eventName`,
`NewImage.PK/SK/query`). -/
structure StreamRecord where
  eventName : String
  pk : String
  sk : String
  query : String
  deriving Repr, DecidableEq

/-- The tables the worker touches: the discovery queue it updates and
the supplement cache it invalidates. -/
structure WorkerState where
  queue : List ((String × String) × QueueItem) := []
  cache : List (String × CacheItem) := []
  deriving Repr, DecidableEq

/-- Outcomes of the worker's external calls: the PubMed esearch call
(`.error` is the exception `query_pubmed` catches), the LanceDB insert
(`insert_supplement`'s boolean), an unexpected in-flight exception for
the per-item `except` branch, and the digest used by `invalidate_cache`. -/
structure WorkerCtx where
  pubmed : String → Except String Int
  insertOk : String → Bool
  crash : String → Option String
  sha256hex : String → String
  minStudies : Int := 3

/-- Return dict of the worker's `query_pubmed` (lines 43–100). -/
structure PubmedData where
  study_count : Int
  evidence_grade : String
  pubmed_query : String
  deriving Repr, DecidableEq

/-- `query_pubmed`: count plus grade on success; on any exception a
zero count with grade `D` and the bare name as query. -/
def query_pubmed (supplement_name : String) (outcome : Except String Int) :
    PubmedData :=
  match outcome with
  | .ok study_count =>
    { study_count := study_count
      evidence_grade := gradeOf study_count
      pubmed_query := supplement_name ++ " AND (supplement OR supplementation)" }
  | .error _ =>
    { study_count := 0, evidence_grade := "D"
      pubmed_query := supplement_name }

/-- `update_discovery_status` (lines 171–194): `SET` status and
`processedAt`, plus `errorMessage` only when an error string is given;
all other attributes of the item are left as they are. -/
def update_discovery_status (now : Int) (pk sk status : String)
    (error : Option String)
    (queue : List ((String × String) × QueueItem)) :
    List ((String × String) × QueueItem) :=
  updAssoc (pk, sk) (fun item =>
    { item with
        status := status
        processedAt := some now
        errorMessage := (match error with
          | some e => some e
          | none => item.errorMessage) }) queue

/-- `invalidate_cache` (lines 153–168): delete the cache entry keyed by
the digest of the lowercased name. -/
def invalidate_cache (sha256hex : String → String) (supplement_name : String)
    (cache : List (String × CacheItem)) : List (String × CacheItem) :=
  delAssoc (cacheKeyOf (takeChars 16 (sha256hex (pyLower supplement_name))))
    cache

/-- One iteration of the worker's record loop (lines 204–248): skip
non-INSERT records; otherwise mark processing, consult PubMed, and
either fail on insufficient evidence, fail on a failed insert, complete
(invalidating the cache), or fail with the text of an unexpected
exception. -/
def process_record (wctx : WorkerCtx) (now : Int) (st : WorkerState)
    (record : StreamRecord) : WorkerState :=
  if record.eventName = "INSERT" then
    match wctx.crash record.query with
    | some emsg =>
      { st with queue := (update_discovery_status now record.pk record.sk
          "failed" (some emsg)
          (update_discovery_status now record.pk record.sk "processing" none
            st.queue)) }
    | none =>
      if (query_pubmed record.query (wctx.pubmed record.query)).study_count <
          wctx.minStudies then
        { st with queue := (update_discovery_status now record.pk record.sk
            "failed"
            (some ("Insufficient evidence: " ++
              toString (query_pubmed record.query
                (wctx.pubmed record.query)).study_count ++ " studies"))
            (update_discovery_status now record.pk record.sk "processing" none
              st.queue)) }
      else if wctx.insertOk record.query then
        { st with
            cache := invalidate_cache wctx.sha256hex record.query st.cache
            queue := (update_discovery_status now record.pk record.sk
              "completed" none
              (update_discovery_status now record.pk record.sk "processing"
                none st.queue)) }
      else
        { st with queue := (update_discovery_status now record.pk record.sk
            "failed" (some "Insert failed")
            (update_discovery_status now record.pk record.sk "processing" none
              st.queue)) }
  else st

/-- The worker's `lambda_handler` (lines 197–267): fold the batch. -/
def discovery_worker_handler (wctx : WorkerCtx) (now : Int)
    (records : List StreamRecord) (st : WorkerState) : WorkerState :=
  records.foldl (process_record wctx now) st

/-- A status update with a non-`pending` status cannot produce a
`pending` item: an item pending after the update was already stored,
unchanged, before it. -/
theorem lookupAssoc_update_status_pending (now : Int)
    (pk sk status : String) (error : Option String)
    (queue : List ((String × String) × QueueItem)) (key : String × String)
    (item' : QueueItem)
    (h : lookupAssoc key (update_discovery_status now pk sk status error
      queue) = some item')
    (hpend : item'.status = "pending") (hstatus : ¬ status = "pending") :
    lookupAssoc key queue = some item' := by
  unfold update_discovery_status at h
  rw [lookupAssoc_updAssoc] at h
  by_cases hk : key = (pk, sk)
  · rw [if_pos hk] at h
    cases hit : lookupAssoc key queue with
    | none => rw [hit] at h; simp at h
    | some it =>
      rw [hit] at h
      simp only [Option.map_some'] at h
      cases Option.some.inj h
      exact absurd hpend hstatus
  · rw [if_neg hk] at h
    exact h

/-- A status update never touches an item's `retryCount`. -/
theorem lookupAssoc_update_status_retryCount (now : Int)
    (pk sk status : String) (error : Option String)
    (queue : List ((String × String) × QueueItem)) (key : String × String) :
    (lookupAssoc key (update_discovery_status now pk sk status error
        queue)).map QueueItem.retryCount =
      (lookupAssoc key queue).map QueueItem.retryCount := by
  unfold update_discovery_status
  rw [lookupAssoc_updAssoc]
  by_cases h : key = (pk, sk)
  · rw [if_pos h]
    cases lookupAssoc key queue with
    | none => rfl
    | some it => rfl
  · rw [if_neg h]

/-! ## Theorems: worker failure handling (C7) -/

/-- Fixtures for the worker: one pending item with `retryCount = 0`,
an oracle reporting zero studies. -/
def cexItem : QueueItem :=
  { query := "foo", searchCount := 1, priority := 1, status := "pending"
    createdAt := 10, retryCount := some 0 }

def cexWctx : WorkerCtx :=
  { pubmed := fun _ => .ok 0, insertOk := fun _ => true
    crash := fun _ => none, sha256hex := fun s => s }

def cexRecord : StreamRecord :=
  { eventName := "INSERT", pk := "DISCOVERY#x", sk := "PENDING"
    query := "foo" }

def cexState : WorkerState :=
  { queue := [(("DISCOVERY#x", "PENDING"), cexItem)] }

/-- **C7 counterexample.** Processing a failing item (zero studies)
marks it `failed` and records the reason, but its retry counter stays at
0 — `update_discovery_status` touches no retry counter, so the claimed
increment does not happen. -/
theorem worker_failed_item_retry_not_incremented :
    (lookupAssoc ("DISCOVERY#x", "PENDING")
        (discovery_worker_handler cexWctx 50 [cexRecord] cexState).queue).map
      QueueItem.status = some "failed" ∧
    (lookupAssoc ("DISCOVERY#x", "PENDING")
        (discovery_worker_handler cexWctx 50 [cexRecord] cexState).queue).map
      QueueItem.errorMessage = some (some "Insufficient evidence: 0 studies") ∧
    (lookupAssoc ("DISCOVERY#x", "PENDING")
        (discovery_worker_handler cexWctx 50 [cexRecord] cexState).queue).map
      QueueItem.retryCount = some (some 0) ∧
    ¬ (lookupAssoc ("DISCOVERY#x", "PENDING")
        (discovery_worker_handler cexWctx 50 [cexRecord] cexState).queue).map
      QueueItem.retryCount = some (some 1) := by
  decide

/-- The queue after one worker iteration: either untouched (non-INSERT
record) or a processing-update followed by a terminal update whose
status is never `pending`. -/
theorem process_record_queue_shape (wctx : WorkerCtx) (now : Int)
    (st : WorkerState) (record : StreamRecord) :
    (process_record wctx now st record).queue = st.queue ∨
    ∃ status2 error2, ¬ status2 = "pending" ∧
      (process_record wctx now st record).queue =
        update_discovery_status now record.pk record.sk status2 error2
          (update_discovery_status now record.pk record.sk "processing" none
            st.queue) := by
  by_cases hins : record.eventName = "INSERT"
  · cases hcr : wctx.crash record.query with
    | some emsg =>
      refine Or.inr ⟨"failed", some emsg, by decide, ?_⟩
      simp [process_record, hins, hcr]
    | none =>
      by_cases hlt : (query_pubmed record.query
          (wctx.pubmed record.query)).study_count < wctx.minStudies
      · refine Or.inr ⟨"failed", some ("Insufficient evidence: " ++
          toString (query_pubmed record.query
            (wctx.pubmed record.query)).study_count ++ " studies"),
          by decide, ?_⟩
        simp [process_record, hins, hcr, hlt]
      · by_cases hok : wctx.insertOk record.query
        · refine Or.inr ⟨"completed", none, by decide, ?_⟩
          simp [process_record, hins, hcr, hlt, hok]
        · refine Or.inr ⟨"failed", some "Insert failed", by decide, ?_⟩
          simp [process_record, hins, hcr, hlt, hok]
  · left
    simp [process_record, hins]

/-- **C7 (amended).** For every record the worker processes: it adds and
removes no queue items, it never changes any item's retry counter, any
item pending after processing was already pending before (the worker
schedules no retries), and each failure mode — an unexpected exception,
insufficient evidence, a failed insert — leaves the item `failed` with
the failure reason in `errorMessage` and the processing timestamp set. -/
theorem worker_failures_record_reason_without_retry
    (wctx : WorkerCtx) (now : Int) (st : WorkerState)
    (record : StreamRecord) :
    ((process_record wctx now st record).queue.map Prod.fst =
      st.queue.map Prod.fst) ∧
    (∀ key, (lookupAssoc key (process_record wctx now st record).queue).map
        QueueItem.retryCount =
      (lookupAssoc key st.queue).map QueueItem.retryCount) ∧
    (∀ key item', lookupAssoc key (process_record wctx now st record).queue =
        some item' → item'.status = "pending" →
      lookupAssoc key st.queue = some item') ∧
    (∀ item, record.eventName = "INSERT" →
      lookupAssoc (record.pk, record.sk) st.queue = some item →
      (∀ emsg, wctx.crash record.query = some emsg →
        lookupAssoc (record.pk, record.sk)
            (process_record wctx now st record).queue =
          some { item with
                 status := "failed"
                 processedAt := some now
                 errorMessage := some emsg }) ∧
      (wctx.crash record.query = none →
        (query_pubmed record.query (wctx.pubmed record.query)).study_count <
          wctx.minStudies →
        lookupAssoc (record.pk, record.sk)
            (process_record wctx now st record).queue =
          some { item with
                 status := "failed"
                 processedAt := some now
                 errorMessage := some ("Insufficient evidence: " ++
                   toString (query_pubmed record.query
                     (wctx.pubmed record.query)).study_count ++
                   " studies") }) ∧
      (wctx.crash record.query = none →
        ¬ (query_pubmed record.query (wctx.pubmed record.query)).study_count <
          wctx.minStudies →
        wctx.insertOk record.query = false →
        lookupAssoc (record.pk, record.sk)
            (process_record wctx now st record).queue =
          some { item with
                 status := "failed"
                 processedAt := some now
                 errorMessage := some "Insert failed" })) := by
  refine ⟨?_, ?_, ?_, ?_⟩
  · rcases process_record_queue_shape wctx now st record with heq | ⟨s2, e2, _, heq⟩
    · rw [heq]
    · rw [heq]
      simp [update_discovery_status, updAssoc_keys]
  · intro key
    rcases process_record_queue_shape wctx now st record with heq | ⟨s2, e2, _, heq⟩
    · rw [heq]
    · rw [heq]
      simp [lookupAssoc_update_status_retryCount]
  · intro key item' hlook hpend
    rcases process_record_queue_shape wctx now st record with heq | ⟨s2, e2, hs2, heq⟩
    · rw [heq] at hlook
      exact hlook
    · rw [heq] at hlook
      exact lookupAssoc_update_status_pending _ _ _ _ _ _ _ _ (lookupAssoc_update_status_pending _ _ _ _ _ _ _ _ hlook hpend hs2) hpend (by decide)
  · intro item hins hitem
    refine ⟨?_, ?_, ?_⟩
    · intro emsg hcrash
      unfold process_record
      rw [if_pos hins, hcrash]
      simp [update_discovery_status, lookupAssoc_updAssoc, hitem]
    · intro hcrash hlt
      unfold process_record
      rw [if_pos hins, hcrash]
      simp [hlt, update_discovery_status, lookupAssoc_updAssoc, hitem]
    · intro hcrash hge hins'
      unfold process_record
      rw [if_pos hins, hcrash]
      simp [hge, hins', update_discovery_status, lookupAssoc_updAssoc, hitem]

/-- Closed instance of the C7 amended theorem at the zero-study
scenario: the item ends `failed` with the reason recorded and its
retry counter untouched. -/
theorem worker_failures_record_reason_without_retry_witness :
    lookupAssoc ("DISCOVERY#x", "PENDING")
        (process_record cexWctx 50 cexState cexRecord).queue =
      some { query := "foo"
             searchCount := 1
             priority := 1
             status := "failed"
             createdAt := 10
             errorMessage := some "Insufficient evidence: 0 studies"
             processedAt := some 50
             retryCount := some 0 } ∧
    (lookupAssoc ("DISCOVERY#x", "PENDING")
        (process_record cexWctx 50 cexState cexRecord).queue).map
      QueueItem.retryCount =
      (lookupAssoc ("DISCOVERY#x", "PENDING") cexState.queue).map
        QueueItem.retryCount := by
  have h := worker_failures_record_reason_without_retry cexWctx 50 cexState
    cexRecord
  have hc := (h.2.2.2 cexItem rfl (by decide)).2.1 rfl (by decide)
  constructor
  · exact hc.trans (by decide)
  · exact h.2.1 ("DISCOVERY#x", "PENDING")

end SuplementIA
